import Mathlib

/-!
Verification of `src/include/gdf-arrow/errorutils.h` from Quansight/libgdf-arrow.

The header defines three early-return guard macros:

  `#define CUDA_TRY(x) if ((x)!=cudaSuccess) return GDF_ARROW_CUDA_ERROR;`
  `#define CUDA_CHECK_LAST() CUDA_TRY(cudaPeekAtLastError())`
  `#define GDF_ARROW_REQUIRE(F, S) if (!(F)) return (S);`

We embed each macro, together with the code that follows it in the enclosing
function, as a state-passing combinator: an expression with side effects is a
function `σ → α × σ`, the remainder of the enclosing function is
`rest : σ → ρ × σ`, and the combinator returns the enclosing function's
result together with the final state.  This makes control flow (early return
versus fall-through), evaluation counts and state effects explicit and
provable.
-/

namespace GdfArrow

/-- CUDA runtime status codes (`cudaError_t`); `cudaSuccess` is the value 0. -/
abbrev CudaError := Nat

/-- The designated CUDA success value. -/
def cudaSuccess : CudaError := 0

/-- Modelled from the spec: the implicit status-code enumeration returned by
functions of the surrounding library ("a generic success code, a CUDA-error
code, and caller-supplied failure codes").  Only `GDF_ARROW_CUDA_ERROR` is
named by the header itself. -/
inductive GdfArrowError where
  | GDF_ARROW_SUCCESS
  | GDF_ARROW_CUDA_ERROR
  | GDF_ARROW_OTHER (code : Nat)
  deriving DecidableEq, Repr

/-- A side-effect-free expression of value `a`, as a stateful expression. -/
def pureE {σ α : Type} (a : α) : σ → α × σ := fun s => (a, s)

/-- Instrumented CUDA call of value `v` over a `Nat` evaluation counter:
each evaluation bumps the counter by one. -/
def countCalls (v : CudaError) : Nat → CudaError × Nat :=
  fun n => (v, n + 1)

/-- Shallow embedding of
`#define CUDA_TRY(x) if ((x)!=cudaSuccess) return GDF_ARROW_CUDA_ERROR;`
as placed in an enclosing function: `x` is evaluated once where the macro
text puts it; if its value differs from `cudaSuccess` the enclosing function
returns `GDF_ARROW_CUDA_ERROR` at once, otherwise the code after the
macro (`rest`) runs on the state left by `x`. -/
def CUDA_TRY_run {σ : Type} (x : σ → CudaError × σ)
    (rest : σ → GdfArrowError × σ) (s : σ) : GdfArrowError × σ :=
  let p := x s
  if p.1 ≠ cudaSuccess then (GdfArrowError.GDF_ARROW_CUDA_ERROR, p.2)
  else rest p.2

/-- Shallow embedding of `#define GDF_ARROW_REQUIRE(F, S) if (!(F)) return (S);`:
`F` is evaluated once; if it is false the enclosing function returns the
value of `S` (evaluated only on that path), otherwise `rest` runs. -/
def GDF_ARROW_REQUIRE_run {σ ρ : Type} (F : σ → Bool × σ) (S : σ → ρ × σ)
    (rest : σ → ρ × σ) (s : σ) : ρ × σ :=
  let p := F s
  if !p.1 then S p.2 else rest p.2

/-- The GPU runtime state visible to this header: its recorded last error. -/
structure CudaState where
  lastError : CudaError
  deriving DecidableEq, Repr

/-- Modelled from the spec: `cudaPeekAtLastError` "queries the GPU runtime
for the most recent asynchronous error"; it returns the recorded last error
and, being a peek, leaves the runtime state unchanged. -/
def cudaPeekAtLastError (s : CudaState) : CudaError × CudaState :=
  (s.lastError, s)

/-- Shallow embedding of `#define CUDA_CHECK_LAST() CUDA_TRY(cudaPeekAtLastError())`,
written out as the text the preprocessor produces:
`if ((cudaPeekAtLastError())!=cudaSuccess) return GDF_ARROW_CUDA_ERROR;`
followed by the rest of the enclosing function. -/
def CUDA_CHECK_LAST_run (rest : CudaState → GdfArrowError × CudaState)
    (s : CudaState) : GdfArrowError × CudaState :=
  let p := cudaPeekAtLastError s
  if p.1 ≠ cudaSuccess then (GdfArrowError.GDF_ARROW_CUDA_ERROR, p.2)
  else rest p.2

/-- Claim C1: for every status expression `x` whose value is not
`cudaSuccess`, `CUDA_TRY(x)` makes the enclosing function return
`GDF_ARROW_CUDA_ERROR` immediately, executing none of the code that follows
the macro: the result is the error status paired with the state right after
evaluating `x`, for every possible `rest`. -/
theorem CUDA_TRY_fail_returns_cuda_error {σ : Type}
    (x : σ → CudaError × σ) (s : σ) (h : (x s).1 ≠ cudaSuccess)
    (rest : σ → GdfArrowError × σ) :
    CUDA_TRY_run x rest s = (GdfArrowError.GDF_ARROW_CUDA_ERROR, (x s).2) := by
  simp only [CUDA_TRY_run, h, if_pos, ne_eq, not_false_eq_true, ite_true]

/-- Witness for C1 at a concrete input: a call returning status 1 over a
`Nat` state, with a `rest` that would return `GDF_ARROW_SUCCESS`. -/
theorem CUDA_TRY_fail_returns_cuda_error_witness :
    CUDA_TRY_run (pureE 1) (pureE GdfArrowError.GDF_ARROW_SUCCESS) 0
      = (GdfArrowError.GDF_ARROW_CUDA_ERROR, 0) :=
  CUDA_TRY_fail_returns_cuda_error (pureE 1) 0 (by decide)
    (pureE GdfArrowError.GDF_ARROW_SUCCESS)

/-- Claim C2: `GDF_ARROW_REQUIRE(F, S)` makes the enclosing function return
`S` exactly when `F` is false; when `F` is true the macro has no effect: the
enclosing function's result and final state are exactly those of the code
that follows. -/
theorem GDF_ARROW_REQUIRE_returns_iff_false {σ ρ : Type} (F : Bool) (S : ρ)
    (rest : σ → ρ × σ) (s : σ) :
    GDF_ARROW_REQUIRE_run (pureE F) (pureE S) rest s
      = if F then rest s else (S, s) := by
  cases F <;> simp [GDF_ARROW_REQUIRE_run, pureE]

/-- Claim C3: `CUDA_CHECK_LAST()` is behaviourally equal to `CUDA_TRY`
applied to `cudaPeekAtLastError()`: for every runtime state and every
continuation, both produce the same outcome and returned status. -/
theorem CUDA_CHECK_LAST_eq_CUDA_TRY_peek
    (rest : CudaState → GdfArrowError × CudaState) (s : CudaState) :
    CUDA_CHECK_LAST_run rest s = CUDA_TRY_run cudaPeekAtLastError rest s := rfl

/-- Claim C4: when `x` evaluates to `cudaSuccess`, `CUDA_TRY(x)` does not
return from the enclosing function, and execution continues on exactly the
state left by evaluating `x`, as if the guard were absent. -/
theorem CUDA_TRY_success_continues {σ : Type}
    (x : σ → CudaError × σ) (s : σ) (h : (x s).1 = cudaSuccess)
    (rest : σ → GdfArrowError × σ) :
    CUDA_TRY_run x rest s = rest (x s).2 := by
  simp [CUDA_TRY_run, h]

/-- Witness for C4 at a concrete input: a successful call over a `Nat`
state, with a `rest` returning `GDF_ARROW_OTHER 7`. -/
theorem CUDA_TRY_success_continues_witness :
    CUDA_TRY_run (pureE cudaSuccess) (pureE (GdfArrowError.GDF_ARROW_OTHER 7)) 0
      = (GdfArrowError.GDF_ARROW_OTHER 7, 0) :=
  CUDA_TRY_success_continues (pureE cudaSuccess) 0 (by decide)
    (pureE (GdfArrowError.GDF_ARROW_OTHER 7))

/-- Claim C5: the status returned by `CUDA_TRY` on failure is one fixed
value: for any two non-success calls, the statuses returned by the enclosing
functions coincide, whatever the particular CUDA errors were. -/
theorem CUDA_TRY_error_status_fixed {σ : Type}
    (x₁ x₂ : σ → CudaError × σ) (s₁ s₂ : σ)
    (h₁ : (x₁ s₁).1 ≠ cudaSuccess) (h₂ : (x₂ s₂).1 ≠ cudaSuccess)
    (rest₁ rest₂ : σ → GdfArrowError × σ) :
    (CUDA_TRY_run x₁ rest₁ s₁).1 = (CUDA_TRY_run x₂ rest₂ s₂).1 := by
  simp only [CUDA_TRY_run, h₁, h₂, ne_eq, not_false_eq_true, ite_true]

/-- Witness for C5 at concrete inputs: CUDA errors 1 and 2 yield the same
returned status. -/
theorem CUDA_TRY_error_status_fixed_witness :
    (CUDA_TRY_run (pureE 1) (pureE GdfArrowError.GDF_ARROW_SUCCESS) (0 : Nat)).1
      = (CUDA_TRY_run (pureE 2) (pureE (GdfArrowError.GDF_ARROW_OTHER 3)) (5 : Nat)).1 :=
  CUDA_TRY_error_status_fixed (pureE 1) (pureE 2) 0 5 (by decide) (by decide)
    (pureE GdfArrowError.GDF_ARROW_SUCCESS) (pureE (GdfArrowError.GDF_ARROW_OTHER 3))

/-- Claim C6: on any detected failure, each of the three guards performs
exactly one early return and nothing else: the wrapped call is evaluated
exactly once (the counter ends at `n + 1`, so no retry), and the guard
itself modifies no state on the error path (for `GDF_ARROW_REQUIRE` with
effect-free `F` and `S` the state returned is exactly the incoming one, and
for `CUDA_CHECK_LAST` exactly the incoming runtime state). -/
theorem guards_fail_once_and_touch_nothing
    (v : CudaError) (hv : v ≠ cudaSuccess) (S : GdfArrowError) (n : Nat)
    (rest : Nat → GdfArrowError × Nat)
    (rest₂ : CudaState → GdfArrowError × CudaState) :
    CUDA_TRY_run (countCalls v) rest n
        = (GdfArrowError.GDF_ARROW_CUDA_ERROR, n + 1)
    ∧ CUDA_CHECK_LAST_run rest₂ ⟨v⟩
        = (GdfArrowError.GDF_ARROW_CUDA_ERROR, ⟨v⟩)
    ∧ GDF_ARROW_REQUIRE_run (pureE false) (pureE S) rest n = (S, n) := by
  refine ⟨?_, ?_, ?_⟩
  · simp only [CUDA_TRY_run, countCalls, hv, ne_eq, not_false_eq_true, ite_true]
  · simp only [CUDA_CHECK_LAST_run, cudaPeekAtLastError, hv, ne_eq,
      not_false_eq_true, ite_true]
  · simp [GDF_ARROW_REQUIRE_run, pureE]

/-- Witness for C6 at concrete inputs: CUDA error 3, status
`GDF_ARROW_OTHER 9`, counter 4. -/
theorem guards_fail_once_and_touch_nothing_witness :
    CUDA_TRY_run (countCalls 3) (pureE GdfArrowError.GDF_ARROW_SUCCESS) 4
        = (GdfArrowError.GDF_ARROW_CUDA_ERROR, 5)
    ∧ CUDA_CHECK_LAST_run (pureE GdfArrowError.GDF_ARROW_SUCCESS) ⟨3⟩
        = (GdfArrowError.GDF_ARROW_CUDA_ERROR, ⟨3⟩)
    ∧ GDF_ARROW_REQUIRE_run (pureE false) (pureE (GdfArrowError.GDF_ARROW_OTHER 9))
        (pureE GdfArrowError.GDF_ARROW_SUCCESS) 4
        = (GdfArrowError.GDF_ARROW_OTHER 9, 4) :=
  guards_fail_once_and_touch_nothing 3 (by decide) (GdfArrowError.GDF_ARROW_OTHER 9) 4
    (pureE GdfArrowError.GDF_ARROW_SUCCESS) (pureE GdfArrowError.GDF_ARROW_SUCCESS)

/-- Claim C7: `CUDA_TRY(x)` evaluates `x` exactly once on both the success
and the failure path: over an evaluation counter that only `x` bumps, the
final counter is `n + 1` whatever value `x` returned. -/
theorem CUDA_TRY_evaluates_once (v : CudaError) (r : GdfArrowError) (n : Nat) :
    (CUDA_TRY_run (countCalls v) (fun m => (r, m)) n).2 = n + 1 := by
  by_cases h : v = cudaSuccess <;>
    simp [CUDA_TRY_run, countCalls, h]

/-- Claim C8: `GDF_ARROW_REQUIRE(F, S)` evaluates `S` only when `F` is
false: over a counter that only evaluations of `S` bump, the final counter
is unchanged when `F` is true and bumped exactly once when `F` is false. -/
theorem GDF_ARROW_REQUIRE_S_only_on_failure
    (b : Bool) (Sv r : GdfArrowError) (n : Nat) :
    (GDF_ARROW_REQUIRE_run (fun m => (b, m)) (fun m => (Sv, m + 1))
        (fun m => (r, m)) n).2 = if b then n else n + 1 := by
  cases b <;> simp [GDF_ARROW_REQUIRE_run]

/-- Claim C9: `CUDA_CHECK_LAST()` only peeks at the runtime's last-error
state: the peek returns the state unchanged, and whether the check fails
(the incoming state is returned as is) or passes (`rest` receives the
incoming state as is), the recorded last error is what it was before. -/
theorem CUDA_CHECK_LAST_preserves_last_error
    (rest : CudaState → GdfArrowError × CudaState) (s : CudaState) :
    (cudaPeekAtLastError s).2 = s
    ∧ CUDA_CHECK_LAST_run rest s
        = if s.lastError ≠ cudaSuccess
          then (GdfArrowError.GDF_ARROW_CUDA_ERROR, s) else rest s := by
  refine ⟨rfl, ?_⟩
  by_cases h : s.lastError = cudaSuccess <;>
    simp [CUDA_CHECK_LAST_run, cudaPeekAtLastError, h]

end GdfArrow
